import Mathlib

/-!
Verification of the GBA phasing core (`gauchian/caller/phasing_gba.py`).

Haplotypes are modelled as `List Char` over the genotype alphabet
`{'1', '2', 'x'}` (reference / variant / unknown).  The collaborator
primitives from `depth_calling` (fragment extraction, extension, depth
blocks, …) are not part of this core; they are abstracted as fields of an
environment record, and the record / depth-block value types are modelled
from the spec's data-model section.
-/

namespace PhasingGba

/-- Number of occurrences of the two-character pattern `a, b` at adjacent
positions of a string.  For the patterns used by the source (`"12"` and
`"21"`, whose two characters differ) this coincides with Python's
non-overlapping `str.count`. -/
def count2 (a b : Char) : List Char → Nat
  | c :: d :: rest => (if c = a ∧ d = b then 1 else 0) + count2 a b (d :: rest)
  | _ => 0

/-- Python's `"ab" in s` for a two-character pattern. -/
def has2 (a b : Char) (s : List Char) : Bool :=
  decide (0 < count2 a b s)

/-- Python's `s.index("ab")` for a two-character pattern: position of the
first occurrence.  The source only evaluates it under an `"ab" in s` guard;
on absence this model returns the string length, where Python would raise. -/
def index2 (a b : Char) : List Char → Nat
  | c :: d :: rest => if c = a ∧ d = b then 0 else index2 a b (d :: rest) + 1
  | _ => 0

/-- `self.variant_sites` -/
def variant_sites : List Nat := [2, 3, 6, 7]

/-- `self.variant_names` -/
def variant_names : List String := ["A495P", "L483P", "D448H", "c.1263del"]

/-- `self.trusted_hap_threshold` -/
def trusted_hap_threshold : List (List Char) :=
  ["1111112111".toList, "1121111111".toList, "1112111111".toList,
    "1111111221".toList]

/-- `self.trusted_hap_switch_point` -/
def trusted_hap_switch_point : List (List Char) :=
  ["1111112111".toList, "1121111111".toList, "1112111111".toList,
    "1111111221".toList]

/-- The accumulation loop of `get_variants_gba`: the curated name of every
variant site holding `'2'`, in position order. -/
def collect_variants (hap : List Char) : List String :=
  (List.range hap.length).filterMap (fun i =>
    if hap.getD i 'x' = '2' ∧ i ∈ variant_sites then
      variant_names.get? (variant_sites.indexOf i)
    else none)

/-- `PhasingGba.get_variants_gba` -/
def get_variants_gba (hap : List Char) : List String :=
  let variants := collect_variants hap
  if variants = ["A495P", "L483P"] then ["RecNciI"]
  else if variants = ["A495P", "L483P", "D448H"] then ["RecTL"]
  else if variants = ["A495P", "L483P", "D448H", "c.1263del"] then
    ["c.1263del+RecTL"]
  else variants

/-- The per-haplotype condition of `check_deletion_bp_in_gene`:
`total_cn < 4 and hap.count("21") == 1 and "12" not in hap and
"x" not in hap`. -/
def deletion_hap_cond (total_cn : Nat) (hap : List Char) : Bool :=
  decide (total_cn < 4) && (count2 '2' '1' hap == 1) &&
    !(has2 '1' '2' hap) && !(hap.contains 'x')

/-- `PhasingGba.check_deletion_bp_in_gene`: iterate over the haplotypes
(the keys of `var_index_in_haps`) and set the flag whenever one satisfies
the deletion condition; the flag is never assigned `False`. -/
def check_deletion_bp_in_gene (total_cn : Nat) (haps : List (List Char))
    (deletion_bp_in_gene : Bool) : Bool :=
  haps.foldl
    (fun flag hap => if deletion_hap_cond total_cn hap then true else flag)
    deletion_bp_in_gene

/-- Modelled from the spec: depth-block record of the base `Phasing`
collaborator (not part of this core): "an aggregate read/depth-count summary
over a defined subset of sites", "allele counts + optional likelihood", with
"equality/hash ... defined over all fields" (used as deduplication key in
scenario 3).  Likelihoods are modelled as rationals.  A `none` likelihood is
Python's `None`. -/
structure DepthBlock where
  counts : List Nat
  likelihood : Option ℚ
deriving DecidableEq, Repr

/-- Modelled from the spec: the variant-call record produced by
`var_call_per_haplotype` of the base collaborator: "the tuple (haplotype
string, inferred variant name(s), list of depth-block summaries, carrier
boolean)". -/
structure VarCallRecord where
  hap : List Char
  variants : List String
  blocks : List DepthBlock
  carrier : Bool
deriving DecidableEq, Repr

/-- The base-collaborator operations and constants `assess_hap` depends on
(contracts only; spec section 6).  `α` is the abstract type of
`var_sites_haps` returned by `assess_assembled_haps` and consumed by
`carrier_from_assembled_haps`. -/
structure Env (α : Type) where
  get_depth_for_blocks : List Nat → ℚ → Bool × List DepthBlock
  get_depth_for_block : List Nat → Nat → DepthBlock
  assess_assembled_haps : List (List Char) → Bool × α
  carrier_from_assembled_haps : α → Bool
  CN_likelihood_threshold : ℚ
  CN_likelihood_threshold_loose : ℚ

/-- The mutable per-sample fields of the classifier that `assess_hap`
reads and writes. -/
structure PhasingState where
  is_carrier : Bool
  variants_details : List VarCallRecord
deriving Repr

/-- The copy-number threshold scenario 1 passes to `get_depth_for_blocks`:
the source's `if (hap in self.trusted_hap_threshold and
len(full_haplotypes) <= 4)` selects the loose threshold, any other case the
standard one. -/
def scenario1_threshold (env : Env α) (hap : List Char)
    (full_haplotypes : List (List Char)) : ℚ :=
  if hap ∈ trusted_hap_threshold ∧ full_haplotypes.length ≤ 4 then
    env.CN_likelihood_threshold_loose
  else
    env.CN_likelihood_threshold

/-- The carrier flag after scenarios 1 and 2 (source lines 171-179):
`if found_variant_in_short_hap: is_carrier = True
elif len(var_index_in_haps) == 1 and fully_assembled is True: ...`.
`num_haps` is `len(var_index_in_haps)`. -/
def scenario12_carrier (env : Env α) (found_variant_in_short_hap : Bool)
    (num_haps : Nat) (fully_assembled : Bool) (var_sites_haps : α)
    (carrier : Bool) : Bool :=
  if found_variant_in_short_hap then true
  else if num_haps = 1 ∧ fully_assembled = true then
    if env.carrier_from_assembled_haps var_sites_haps = true then true
    else carrier
  else carrier

/-- The scenario-3 likelihood test on one switch block:
`switch_block.likelihood is not None and
switch_block.likelihood > self.CN_likelihood_threshold`.  The Python `and`
short-circuits, so a `None` likelihood is never compared. -/
def block_triggers (env : Env α) (b : DepthBlock) : Bool :=
  match b.likelihood with
  | none => false
  | some l => decide (env.CN_likelihood_threshold < l)

/-- One iteration of scenario 3's `for switching_hap in ["12", "21"]` loop,
for the pattern `(a, b)`.  `switching_hap.index('1')` is `0` for `"12"` and
`1` for `"21"`. -/
def scenario3_step (env : Env α) (hap : List Char) (a b : Char)
    (cs : Bool × List DepthBlock) : Bool × List DepthBlock :=
  let carrier := cs.1
  let block_result := cs.2
  if has2 a b hap then
    let switch_point := index2 a b hap
    let switch_block :=
      env.get_depth_for_block [switch_point, switch_point + 1]
        (if a = '1' then 0 else 1)
    let block_result :=
      if switch_block ∈ block_result then block_result
      else block_result ++ [switch_block]
    let carrier := if block_triggers env switch_block then true else carrier
    (carrier, block_result)
  else
    (carrier, block_result)

/-- The eligibility condition of scenario 3 (source lines 183-187):
trusted switch-point haplotype, or exactly one `"12"` and no `"21"`, or
exactly one `"21"` and no `"12"`. -/
def scenario3_gate (hap : List Char) : Bool :=
  decide (hap ∈ trusted_hap_switch_point) ||
    ((count2 '1' '2' hap == 1) && !(has2 '2' '1' hap)) ||
    ((count2 '2' '1' hap == 1) && !(has2 '1' '2' hap))

/-- Scenario 3 (source lines 182-200): runs only when `is_carrier` is not
already true and the gate holds; then processes the `"12"` and `"21"`
patterns in order, appending each switch block not already collected and
setting the carrier flag when a block's likelihood exceeds the standard
threshold. -/
def run_scenario3 (env : Env α) (hap : List Char) (carrier : Bool)
    (block_result : List DepthBlock) : Bool × List DepthBlock :=
  if carrier = true then (carrier, block_result)
  else if scenario3_gate hap then
    scenario3_step env hap '2' '1'
      (scenario3_step env hap '1' '2' (carrier, block_result))
  else (carrier, block_result)

/-- Python `var_index_in_haps[hap]`; modelled on an association list.  The
source indexes only with a key of the dict, so the `[]` default is never
reached in calls mirroring the source. -/
def lookup_indices (var_index_in_haps : List (List Char × List Nat))
    (hap : List Char) : List Nat :=
  ((var_index_in_haps.find? (fun p => p.1 == hap)).map Prod.snd).getD []

/-- `PhasingGba.assess_hap`: scenario 1 (depth at flanking sites, with the
trusted-haplotype threshold choice), scenario 2 (fully assembled single
haplotype, no depth), scenario 3 (switch-point depth), then construction and
appending of the variant-call record.  The record's carrier argument is
`True` when `is_carrier` is true, else `found_variant_in_short_hap`. -/
def assess_hap (env : Env α) (hap : List Char)
    (var_index_in_haps : List (List Char × List Nat))
    (full_haplotypes : List (List Char)) (st : PhasingState) : PhasingState :=
  let fa := env.assess_assembled_haps full_haplotypes
  let fully_assembled := fa.1
  let var_sites_haps := fa.2
  let good_var_indices := lookup_indices var_index_in_haps hap
  let r := env.get_depth_for_blocks good_var_indices
    (scenario1_threshold env hap full_haplotypes)
  let found_variant_in_short_hap := r.1
  let block_result := r.2
  let carrier12 := scenario12_carrier env found_variant_in_short_hap
    var_index_in_haps.length fully_assembled var_sites_haps st.is_carrier
  let cb := run_scenario3 env hap carrier12 block_result
  let var_per_hap :=
    if cb.1 = true then
      VarCallRecord.mk hap (get_variants_gba hap) cb.2 true
    else
      VarCallRecord.mk hap (get_variants_gba hap) cb.2
        found_variant_in_short_hap
  { is_carrier := cb.1,
    variants_details := st.variants_details ++ [var_per_hap] }

/-- A concrete instance of the collaborator environment (trivial depth
primitives, distinct thresholds), used to exercise the classifier on
concrete inputs. -/
def env0 : Env Unit where
  get_depth_for_blocks := fun _ _ => (false, [])
  get_depth_for_block := fun _ _ => ⟨[], none⟩
  assess_assembled_haps := fun _ => (false, ())
  carrier_from_assembled_haps := fun _ => false
  CN_likelihood_threshold := 1
  CN_likelihood_threshold_loose := 2

/-- The `depth_calling.haplotype` primitives `assemble_haplotypes` depends
on (contracts only; spec section 6), closed over the sample's
`self.haplotype_per_read`.  `β` is the abstract type of the haplotype
groups returned by `group_haps`; `extract_hap` returns the pattern → support
mapping as an association list. -/
structure AsmEnv (β : Type) where
  extract_hap : List Nat → List (List Char × List Nat)
  filter_hap : List (List Char × List Nat) → List (List Char × List Nat)
  group_haps : List (List Char) → β
  extend_hap_5p : β → List (List Char)
  extend_hap_3p : β → List (List Char)
  join_subblocks : List (List Char) → List (List Char) → Nat → Nat →
    List (List Char) × Nat

/-- Left-pass seed embedding (source line 99):
`"x" * 2 + a + "x" * 6`. -/
def embed_left (a : List Char) : List Char :=
  List.replicate 2 'x' ++ a ++ List.replicate 6 'x'

/-- Right-pass seed embedding (source line 122):
`"x" * 6 + a + a[-1] + "x"` — note position 8 holds a copy of the seed's
last symbol, not `'x'`.  Python's `a[-1]` raises on an empty `a`; seeds
always span two sites, and on an empty list this model pads with `'x'`. -/
def embed_right (a : List Char) : List Char :=
  List.replicate 6 'x' ++ a ++ [a.getLastD 'x'] ++ List.replicate 1 'x'

/-- The bounded extension loop of `assemble_haplotypes` (source lines
107-117 and 127-137): `n = 0; while n < 4: n += 1; if nonempty:
group_haps + extend; else break`.  The fuel argument is the remaining
rounds (4 at the top); the second component counts the group/extend calls
performed. -/
def extend_loop (env : AsmEnv β) (ext : β → List (List Char)) :
    Nat → List (List Char) → List (List Char) × Nat
  | 0, haps => (haps, 0)
  | n + 1, haps =>
    if haps ≠ [] then
      let r := extend_loop env ext n (ext (env.group_haps haps))
      (r.1, r.2 + 1)
    else (haps, 0)

/-- The `assembled_haplotypes` named tuple. -/
structure AssembledHaplotypes where
  full_haplotypes : List (List Char)
  hap_5p : List (List Char)
  hap_3p : List (List Char)
deriving Repr

/-- `PhasingGba.assemble_haplotypes` (with `debug=False`): left-anchored
pass seeded on sites 2-3 (one 5p extension performed twice — kept as in the
source — then up to 4 rounds of 3p extension), right-anchored pass seeded
on sites 6-7 (one 3p extension, then up to 4 rounds of 5p extension), and
the join over bounds 2 and 8. -/
def assemble_haplotypes (env : AsmEnv β) : AssembledHaplotypes :=
  let hap_count := env.filter_hap (env.extract_hap [2, 3])
  let haplotypes_to_extend := hap_count.map (fun a => embed_left a.1)
  let haplotypes_to_extend :=
    env.extend_hap_5p (env.group_haps haplotypes_to_extend)
  let haplotypes_to_extend :=
    env.extend_hap_5p (env.group_haps haplotypes_to_extend)
  let hap_5p := (extend_loop env env.extend_hap_3p 4 haplotypes_to_extend).1
  let hap_count := env.filter_hap (env.extract_hap [6, 7])
  let haplotypes_to_extend := hap_count.map (fun a => embed_right a.1)
  let haplotypes_to_extend :=
    env.extend_hap_3p (env.group_haps haplotypes_to_extend)
  let hap_3p := (extend_loop env env.extend_hap_5p 4 haplotypes_to_extend).1
  let fd := env.join_subblocks hap_5p hap_3p 2 8
  ⟨fd.1, hap_5p, hap_3p⟩

/-! ### Helper lemmas -/

/-- `check_deletion_bp_in_gene` computes the disjunction of the incoming
flag with the per-haplotype conditions. -/
theorem check_deletion_bp_in_gene_eq (tc : Nat) (haps : List (List Char))
    (flag : Bool) :
    check_deletion_bp_in_gene tc haps flag =
      (flag || haps.any (deletion_hap_cond tc)) := by
  induction haps generalizing flag with
  | nil => simp [check_deletion_bp_in_gene]
  | cons h t ih =>
    simp only [check_deletion_bp_in_gene, List.foldl_cons] at ih ⊢
    rw [ih]
    cases hc : deletion_hap_cond tc h <;> simp [hc]

/-- Scenario 1 or 2 having set the carrier flag, the flag stays set. -/
theorem scenario12_carrier_of_true (env : Env α) (f : Bool) (n : Nat)
    (fa : Bool) (v : α) :
    scenario12_carrier env f n fa v true = true := by
  unfold scenario12_carrier
  split
  · rfl
  · split
    · split <;> rfl
    · rfl

/-- Scenario 1 having found the variant, the flag is set regardless of the
scenario-2 inputs. -/
theorem scenario12_carrier_of_found (env : Env α) (n : Nat) (fa : Bool)
    (v : α) (c : Bool) :
    scenario12_carrier env true n fa v c = true := by
  unfold scenario12_carrier
  simp

/-- Scenario 3 is skipped outright when the carrier flag is already set. -/
theorem run_scenario3_of_true (env : Env α) (hap : List Char)
    (b : List DepthBlock) :
    run_scenario3 env hap true b = (true, b) := by
  unfold run_scenario3
  simp

/-! ### Claims -/

/-- C3: `get_variants_gba` resolves compound variants: the haplotype
`"xx22xx22xx"` (variant sites 2,3,6,7 all `'2'`) yields exactly
`["c.1263del+RecTL"]`; any haplotype whose per-site variant list is exactly
`["A495P","L483P"]` yields `["RecNciI"]`; exactly
`["A495P","L483P","D448H"]` yields `["RecTL"]`; exactly all four names
yields `["c.1263del+RecTL"]`; and any other haplotype yields the names of
its variant sites holding `'2'`, in site order. -/
theorem get_variants_gba_spec :
    get_variants_gba "xx22xx22xx".toList = ["c.1263del+RecTL"] ∧
    (∀ hap : List Char, collect_variants hap = ["A495P", "L483P"] →
      get_variants_gba hap = ["RecNciI"]) ∧
    (∀ hap : List Char, collect_variants hap = ["A495P", "L483P", "D448H"] →
      get_variants_gba hap = ["RecTL"]) ∧
    (∀ hap : List Char,
      collect_variants hap = ["A495P", "L483P", "D448H", "c.1263del"] →
      get_variants_gba hap = ["c.1263del+RecTL"]) ∧
    (∀ hap : List Char, collect_variants hap ≠ ["A495P", "L483P"] →
      collect_variants hap ≠ ["A495P", "L483P", "D448H"] →
      collect_variants hap ≠ ["A495P", "L483P", "D448H", "c.1263del"] →
      get_variants_gba hap = collect_variants hap) := by
  refine ⟨by decide, ?_, ?_, ?_, ?_⟩
  · intro hap h
    simp [get_variants_gba, h]
  · intro hap h
    simp [get_variants_gba, h]
  · intro hap h
    simp [get_variants_gba, h]
  · intro hap h1 h2 h3
    simp [get_variants_gba, h1, h2, h3]

/-- C3 witness: the haplotype `"xx22xx11xx"` carries exactly the
`A495P`/`L483P` pair and resolves to the `RecNciI` recombinant name. -/
theorem get_variants_gba_spec_witness :
    collect_variants "xx22xx11xx".toList = ["A495P", "L483P"] ∧
    get_variants_gba "xx22xx11xx".toList = ["RecNciI"] :=
  ⟨by decide, get_variants_gba_spec.2.1 _ (by decide)⟩

/-- C6 counterexample: with `total_cn = 3 < 4`, the haplotype
`"1111121111"` does NOT set the deletion-breakpoint flag, because it
contains the substring `"12"` (at index 4) and the source requires
`"12" not in hap`. -/
theorem check_deletion_bp_counterexample :
    check_deletion_bp_in_gene 3 ["1111121111".toList] false = false ∧
    has2 '1' '2' "1111121111".toList = true ∧
    count2 '2' '1' "1111121111".toList = 1 := by
  refine ⟨by decide, by decide, by decide⟩

/-- C6 (amended): `check_deletion_bp_in_gene` leaves the flag true when it
was true and otherwise sets it exactly when some haplotype satisfies
`total_cn < 4`, exactly one `"21"`, no `"12"`, and no `'x'`; the haplotype
`"2211111111"` sets it for `total_cn = 3`, while `"1111121111"` does not
(it contains `"12"`), and a haplotype containing `'x'` never does. -/
theorem check_deletion_bp_spec :
    (∀ (tc : Nat) (haps : List (List Char)) (flag : Bool),
      check_deletion_bp_in_gene tc haps flag =
        (flag || haps.any (deletion_hap_cond tc))) ∧
    (∀ (tc : Nat) (hap : List Char),
      deletion_hap_cond tc hap = true ↔
        (tc < 4 ∧ count2 '2' '1' hap = 1 ∧ has2 '1' '2' hap = false ∧
          hap.contains 'x' = false)) ∧
    check_deletion_bp_in_gene 3 ["2211111111".toList] false = true ∧
    (∀ (tc : Nat) (hap : List Char), hap.contains 'x' = true →
      deletion_hap_cond tc hap = false) := by
  refine ⟨check_deletion_bp_in_gene_eq, ?_, by decide, ?_⟩
  · intro tc hap
    simp [deletion_hap_cond, and_assoc, Bool.not_eq_true']
  · intro tc hap h
    simp only [deletion_hap_cond, Bool.and_eq_false_iff]
    right
    simpa using h

/-- C6 witness: a haplotype containing an `'x'` never satisfies the
deletion condition, even when the other conjuncts hold. -/
theorem check_deletion_bp_spec_witness :
    "221111111x".toList.contains 'x' = true ∧
    deletion_hap_cond 3 "221111111x".toList = false :=
  ⟨by decide, check_deletion_bp_spec.2.2.2 3 _ (by decide)⟩

/-- C1 counterexample: for the right-anchored pass, the seed `"12"` is
embedded as `"xxxxxx122x"`: position 8, which lies outside the seed window
(sites 6-7), holds `'2'` (a copy of the seed's last symbol), not `'x'`. -/
theorem embed_right_counterexample :
    embed_right "12".toList =
      ['x', 'x', 'x', 'x', 'x', 'x', '1', '2', '2', 'x'] ∧
    (embed_right "12".toList).getD 8 'x' ≠ 'x' := by
  refine ⟨by decide, by decide⟩

/-- C1 (amended): both embeddings produce a full-length (10-symbol) string;
the left-anchored embedding agrees with the seed on sites 2-3 and is `'x'`
everywhere else; the right-anchored embedding agrees with the seed on sites
6-7, copies the seed's last symbol into position 8, and is `'x'` everywhere
else. -/
theorem embed_spec (a : List Char) (h : a.length = 2) :
    (embed_left a).length = 10 ∧ (embed_right a).length = 10 ∧
    (∀ i, i < 10 → (embed_left a).getD i 'x' =
      if i = 2 ∨ i = 3 then a.getD (i - 2) 'x' else 'x') ∧
    (∀ i, i < 10 → (embed_right a).getD i 'x' =
      if i = 6 ∨ i = 7 then a.getD (i - 6) 'x'
      else if i = 8 then a.getD 1 'x' else 'x') := by
  obtain ⟨c, d, rfl⟩ := List.length_eq_two.mp h
  refine ⟨rfl, rfl, ?_, ?_⟩
  · intro i hi
    interval_cases i <;> simp [embed_left]
  · intro i hi
    interval_cases i <;> simp [embed_right]

/-- C1 witness: instantiating the amended embedding property at the
concrete seed `"12"`. -/
theorem embed_spec_witness :
    "12".toList.length = 2 ∧
    (embed_right "12".toList).getD 8 'x' = "12".toList.getD 1 'x' ∧
    (embed_left "12".toList).getD 4 'x' = 'x' := by
  have h := embed_spec "12".toList (by decide)
  refine ⟨by decide, ?_, ?_⟩
  · simpa using h.2.2.2 8 (by decide)
  · simpa using h.2.2.1 4 (by decide)

/-- C2: scenario 1 of `assess_hap` queries `get_depth_for_blocks` with the
loose copy-number likelihood threshold exactly when the haplotype is in the
trusted-pattern list and at most 4 full haplotypes were assembled; in every
other case it uses the standard threshold (`scenario1_threshold` is the
threshold `assess_hap` passes to its scenario-1 query). -/
theorem scenario1_threshold_spec (α : Type) (env : Env α) (hap : List Char)
    (full_haplotypes : List (List Char))
    (hne : env.CN_likelihood_threshold_loose ≠ env.CN_likelihood_threshold) :
    (scenario1_threshold env hap full_haplotypes =
        env.CN_likelihood_threshold_loose ↔
      (hap ∈ trusted_hap_threshold ∧ full_haplotypes.length ≤ 4)) ∧
    (¬(hap ∈ trusted_hap_threshold ∧ full_haplotypes.length ≤ 4) →
      scenario1_threshold env hap full_haplotypes =
        env.CN_likelihood_threshold) := by
  unfold scenario1_threshold
  by_cases hc : hap ∈ trusted_hap_threshold ∧ full_haplotypes.length ≤ 4
  · simp [hc]
  · simp [hc, Ne.symm hne]

/-- C2 witness: with distinct concrete thresholds, the trusted haplotype
`"1111112111"` and an assembled set of size 1 select the loose threshold. -/
theorem scenario1_threshold_spec_witness :
    env0.CN_likelihood_threshold_loose ≠ env0.CN_likelihood_threshold ∧
    scenario1_threshold env0 "1111112111".toList [[]] =
      env0.CN_likelihood_threshold_loose := by
  have hne : env0.CN_likelihood_threshold_loose ≠
      env0.CN_likelihood_threshold := by decide
  exact ⟨hne,
    (scenario1_threshold_spec Unit env0 "1111112111".toList [[]] hne).1.mpr
      ⟨by decide, by decide⟩⟩

/-- C4: the carrier flag is monotone: a single `assess_hap` call never
clears `is_carrier`, and over any sequence of `assess_hap` calls for a
sample, once `is_carrier` is true it remains true. -/
theorem is_carrier_monotone (α : Type) :
    (∀ (env : Env α) (hap : List Char)
      (vih : List (List Char × List Nat)) (fh : List (List Char))
      (st : PhasingState), st.is_carrier = true →
      (assess_hap env hap vih fh st).is_carrier = true) ∧
    (∀ (env : Env α)
      (calls : List (List Char × List (List Char × List Nat) ×
        List (List Char)))
      (st : PhasingState), st.is_carrier = true →
      (calls.foldl (fun s c => assess_hap env c.1 c.2.1 c.2.2 s)
        st).is_carrier = true) := by
  have single : ∀ (env : Env α) (hap : List Char)
      (vih : List (List Char × List Nat)) (fh : List (List Char))
      (st : PhasingState), st.is_carrier = true →
      (assess_hap env hap vih fh st).is_carrier = true := by
    intro env hap vih fh st hst
    unfold assess_hap
    simp only [hst, scenario12_carrier_of_true, run_scenario3_of_true]
  refine ⟨single, ?_⟩
  intro env calls
  induction calls with
  | nil => intro st hst; simpa using hst
  | cons c t ih =>
    intro st hst
    simpa using ih _ (single env c.1 c.2.1 c.2.2 st hst)

/-- C4 witness: a call on a state whose carrier flag is already set leaves
it set. -/
theorem is_carrier_monotone_witness :
    (PhasingState.mk true []).is_carrier = true ∧
    (assess_hap env0 [] [] [] (PhasingState.mk true [])).is_carrier = true :=
  ⟨rfl, (is_carrier_monotone Unit).1 env0 [] [] [] _ rfl⟩

/-- C5: scenario 3 never runs for a haplotype containing both a `"12"` and
a `"21"` substring that is not in the trusted switch-point list (no switch
block is computed or appended and the carrier flag is unchanged), and never
runs when the carrier flag is already true on entry. -/
theorem scenario3_gating (α : Type) (env : Env α) (hap : List Char)
    (c : Bool) (b : List DepthBlock)
    (h12 : has2 '1' '2' hap = true) (h21 : has2 '2' '1' hap = true)
    (ht : hap ∉ trusted_hap_switch_point) :
    run_scenario3 env hap c b = (c, b) ∧
    ∀ (hap' : List Char) (b' : List DepthBlock),
      run_scenario3 env hap' true b' = (true, b') := by
  refine ⟨?_, fun hap' b' => run_scenario3_of_true env hap' b'⟩
  have hg : scenario3_gate hap = false := by
    simp [scenario3_gate, ht, h12, h21]
  unfold run_scenario3
  cases c <;> simp [hg]

/-- C5 witness: `"1211111111"` contains both transitions and is not
trusted, and scenario 3 leaves the carrier flag and block list untouched. -/
theorem scenario3_gating_witness :
    (has2 '1' '2' "1211111111".toList = true ∧
      has2 '2' '1' "1211111111".toList = true ∧
      "1211111111".toList ∉ trusted_hap_switch_point) ∧
    run_scenario3 env0 "1211111111".toList false [] = (false, []) :=
  ⟨⟨by decide, by decide, by decide⟩,
    (scenario3_gating Unit env0 "1211111111".toList false []
      (by decide) (by decide) (by decide)).1⟩

/-- C7: a switch depth block with an unavailable (`none`) likelihood never
triggers the scenario-3 likelihood test (the short-circuit guard makes the
comparison false, with no exception possible in this total model); when
every block the environment produces has a `none` likelihood, scenario 3
leaves the carrier flag unchanged for every haplotype and block list. -/
theorem scenario3_none_likelihood (α : Type) (env : Env α)
    (hnone : ∀ (pos : List Nat) (idx : Nat),
      (env.get_depth_for_block pos idx).likelihood = none)
    (hap : List Char) (c : Bool) (b : List DepthBlock) :
    (run_scenario3 env hap c b).1 = c ∧
    ∀ blk : DepthBlock, blk.likelihood = none →
      block_triggers env blk = false := by
  have htrig : ∀ blk : DepthBlock, blk.likelihood = none →
      block_triggers env blk = false := by
    intro blk hb
    unfold block_triggers
    rw [hb]
  have hstep : ∀ (a b' : Char) (cs : Bool × List DepthBlock),
      (scenario3_step env hap a b' cs).1 = cs.1 := by
    intro a b' cs
    unfold scenario3_step
    split
    · simp [htrig _ (hnone _ _)]
    · rfl
  refine ⟨?_, htrig⟩
  unfold run_scenario3
  split
  · simp_all
  · split
    · rw [hstep, hstep]
    · rfl

/-- C7 witness: `env0` produces only blocks with `none` likelihoods, and
scenario 3 on the trusted haplotype `"1111112111"` (whose gate passes, so
switch blocks are actually examined) does not set the carrier flag. -/
theorem scenario3_none_likelihood_witness :
    (∀ (pos : List Nat) (idx : Nat),
      (env0.get_depth_for_block pos idx).likelihood = none) ∧
    (run_scenario3 env0 "1111112111".toList false []).1 = false :=
  ⟨fun _ _ => rfl,
    (scenario3_none_likelihood Unit env0 (fun _ _ => rfl)
      "1111112111".toList false []).1⟩

/-- C8: scenario 2 of `assess_hap` (`scenario12_carrier` is the carrier
flag after scenarios 1 and 2) consults `carrier_from_assembled_haps` only
when scenario 1 found no variant, `var_index_in_haps` has exactly one
entry, and the assembled set is fully resolved; when any of these fails the
flag is exactly the scenario-1 outcome, independent of the assembled-set
contents. -/
theorem scenario2_gating (α : Type) (env : Env α) (found : Bool) (n : Nat)
    (fa : Bool) (v : α) (c : Bool) :
    (¬(found = false ∧ n = 1 ∧ fa = true) →
      scenario12_carrier env found n fa v c = (c || found)) ∧
    (found = false → n = 1 → fa = true →
      scenario12_carrier env found n fa v c =
        (c || env.carrier_from_assembled_haps v)) := by
  constructor
  · intro hng
    cases found with
    | true => simp [scenario12_carrier]
    | false =>
      have hna : ¬(n = 1 ∧ fa = true) := fun hc => hng ⟨rfl, hc⟩
      simp [scenario12_carrier, hna]
  · intro hf hn hfa
    subst hf hn hfa
    cases hcv : env.carrier_from_assembled_haps v <;>
      simp [scenario12_carrier, hcv]

/-- C8 witness: with two entries in the mapping (`n = 2`), the flag after
scenarios 1 and 2 equals the scenario-1 outcome. -/
theorem scenario2_gating_witness :
    scenario12_carrier env0 false 2 true () false = (false || false) :=
  (scenario2_gating Unit env0 false 2 true () false).1 (by simp)

/-- C9: each extension loop of `assemble_haplotypes` performs at most as
many group/extend rounds as its fuel (4 in `assemble_haplotypes`), performs
none at all on an empty candidate list (returning it unchanged), stops
exactly where the fuel or an empty list stops it, and the possibly empty
loop results are passed straight to `join_subblocks`; the procedure is a
total function of its input. -/
theorem extend_loop_bounded (β : Type) (env : AsmEnv β) :
    (∀ (ext : β → List (List Char)) (fuel : Nat) (haps : List (List Char)),
      (extend_loop env ext fuel haps).2 ≤ fuel) ∧
    (∀ (ext : β → List (List Char)) (fuel : Nat),
      extend_loop env ext fuel ([] : List (List Char)) = ([], 0)) ∧
    ((assemble_haplotypes env).hap_5p =
      (extend_loop env env.extend_hap_3p 4
        (env.extend_hap_5p (env.group_haps (env.extend_hap_5p
          (env.group_haps ((env.filter_hap (env.extract_hap [2, 3])).map
            (fun a => embed_left a.1))))))).1) ∧
    ((assemble_haplotypes env).full_haplotypes =
      (env.join_subblocks (assemble_haplotypes env).hap_5p
        (assemble_haplotypes env).hap_3p 2 8).1) := by
  refine ⟨?_, ?_, rfl, rfl⟩
  · intro ext fuel
    induction fuel with
    | zero => intro haps; simp [extend_loop]
    | succ n ih =>
      intro haps
      unfold extend_loop
      split
      · simpa using Nat.succ_le_succ (ih _)
      · simp
  · intro ext fuel
    cases fuel <;> simp [extend_loop]

/-- C10: every `assess_hap` call appends exactly one variant-call record,
and the carrier boolean stored in that record equals the final value of
`is_carrier`: in the record-construction branch taken when `is_carrier` is
false, the stored `found_variant_in_short_hap` is necessarily false, since
a true value would already have set `is_carrier`. -/
theorem assess_hap_record (α : Type) (env : Env α) (hap : List Char)
    (vih : List (List Char × List Nat)) (fh : List (List Char))
    (st : PhasingState) :
    ∃ rec : VarCallRecord,
      (assess_hap env hap vih fh st).variants_details =
        st.variants_details ++ [rec] ∧
      rec.carrier = (assess_hap env hap vih fh st).is_carrier := by
  unfold assess_hap
  cases hgd : env.get_depth_for_blocks (lookup_indices vih hap)
      (scenario1_threshold env hap fh) with
  | mk found blocks =>
    simp only [hgd]
    refine ⟨_, rfl, ?_⟩
    by_cases hcb : (run_scenario3 env hap
        (scenario12_carrier env found vih.length
          (env.assess_assembled_haps fh).1 (env.assess_assembled_haps fh).2
          st.is_carrier) blocks).1 = true
    · simp [hcb]
    · have hfound : found = false := by
        cases hf : found with
        | false => rfl
        | true =>
          exfalso
          apply hcb
          rw [hf, scenario12_carrier_of_found, run_scenario3_of_true]
      subst hfound
      rw [if_neg hcb]
      simp only [Bool.not_eq_true] at hcb
      exact hcb.symm

end PhasingGba
